import Mathlib

/-!
Verification of the session-controller behavior of `src/app.py` (a Streamlit
chat application in front of the Gemini API).

The script is re-executed once per UI event.  We embed its session state and
the three pieces of logic the spec's claims are about:

* `get_generative_model` (lines 14-28): a model factory memoized by
  `st.cache_resource`, keyed by the system-instruction string.  We model the
  cache as an association list from prompt text to a construction counter, so
  that "same instance" is "same counter value".  The source's `except` branch
  (construction failure returns `None` and the app halts at lines 87-90) is a
  fatal-startup path and is not needed by any per-key memoization claim.
* the "Apply New System Prompt" button handler (lines 63-79);
* the startup sequence (lines 32-47): API-key check and `genai.configure`;
* chat-session initialization (lines 93-101), run on every script execution
  before the chat input is processed;
* the chat-input handler (lines 115-137).

The external Gemini `ChatSession` is modelled by the `Chat` structure.  Its
`history` field mirrors the SDK behavior (`send_message` appends the user
message and the reply on success and leaves the history unchanged when it
raises).  The fields `sentCalls` and `receivedReplies` are ghost traces of
the interaction with that session: every text passed to `send_message` and
every reply text successfully received.  Presentation-only effects
(`st.markdown`, `st.toast`, banners) are not part of the state.

The repository also contains near-duplicate variants of this script (not
present under `src/`) with a turn counter and periodic reminder injection;
those are modelled from the spec in the `SC` namespace below.
-/

namespace OCApp

inductive Role
  | user
  | assistant
  deriving DecidableEq, Repr

structure ChatMsg where
  role : Role
  content : String
  deriving DecidableEq, Repr

/-- Outcome of one remote `send_message` call, supplied by the environment:
either a reply text or the detail string of a raised exception. -/
inductive SendResult
  | ok (reply : String)
  | err (detail : String)
  deriving DecidableEq, Repr

/-- The `st.cache_resource` cache backing `get_generative_model`: entries map
a system-instruction string to the id of the constructed model, and `next` is
the id the next construction will use (so ids count constructions). -/
structure Cache where
  entries : List (String × Nat)
  next : Nat
  deriving DecidableEq, Repr

/-- Lines 14-28: model construction memoized by prompt text.  A cache hit
returns the cached instance and leaves the cache unchanged; a miss constructs
a fresh instance (a fresh id) and caches it under the prompt text. -/
def get_generative_model (c : Cache) (system_instruction_payload : String) :
    Nat × Cache :=
  match c.entries.lookup system_instruction_payload with
  | some id => (id, c)
  | none =>
      (c.next, ⟨c.entries ++ [(system_instruction_payload, c.next)], c.next + 1⟩)

/-- The external chat session (line 94 `model.start_chat(history=[])`).
`history` is the transcript the SDK maintains; `sentCalls` and
`receivedReplies` are ghost traces of every `send_message` argument and every
successfully received reply text. -/
structure Chat where
  modelId : Nat
  history : List ChatMsg
  sentCalls : List String
  receivedReplies : List String
  deriving DecidableEq, Repr

/-- The per-session Streamlit state touched by the script:
`st.session_state.system_prompt_for_chat`, `st.session_state.messages`,
`st.session_state.chat_session` (absent = `none`). -/
structure AppState where
  system_prompt_for_chat : String
  messages : List ChatMsg
  chat_session : Option Chat
  deriving DecidableEq, Repr

/-- Line 98: the synthetic assistant greeting. -/
def greetingText : String :=
  "Hello! How can I assist you today based on the current system prompt?"

def greetingMsg : ChatMsg := ⟨Role.assistant, greetingText⟩

/-- Lines 63-79: the "Apply New System Prompt & Restart Chat" button handler.
Returns the new state and `true` when the prompt changed (line 76 success
notice and line 77 rerun), `false` for the line 79 no-op notice. -/
def applyNewSystemPrompt (s : AppState) (custom_system_prompt : String) :
    AppState × Bool :=
  if custom_system_prompt ≠ s.system_prompt_for_chat then
    (⟨custom_system_prompt, [], none⟩, true)
  else
    (s, false)

/-- Lines 85-101: obtain the (cached) model for the current prompt and, when
no chat session exists, create one with empty history and seed the greeting
when `messages` is empty (`not st.session_state.get("messages")`). -/
def ensureReady (c : Cache) (s : AppState) : Cache × AppState :=
  let r := get_generative_model c s.system_prompt_for_chat
  match s.chat_session with
  | some _ => (r.2, s)
  | none =>
      (r.2,
        { s with
          chat_session := some ⟨r.1, [], [], []⟩,
          messages := if s.messages.isEmpty then [greetingMsg] else s.messages })

/-- Line 131: the error string shown and logged when `send_message` raises;
the exception detail is interpolated at the end. -/
def errorForDisplay (e : String) : String :=
  "Oops, an error occurred while communicating with the model: " ++ e

/-- Lines 115-137: the chat-input handler.  An empty submission is falsy at
line 115 and the handler body does not run.  Otherwise the user record is
appended (line 116); with a live session the text is sent and either the
reply (line 126) or an error record (line 132) is appended; without a session
only an error banner is shown (line 137). -/
def chatInputHandler (s : AppState) (user_prompt : String) (o : SendResult) :
    AppState :=
  if user_prompt = "" then s
  else
    match s.chat_session, o with
    | some cs, SendResult.ok response_text =>
        { s with
          messages := s.messages ++
            [⟨Role.user, user_prompt⟩, ⟨Role.assistant, response_text⟩],
          chat_session := some
            ⟨cs.modelId,
             cs.history ++
               [⟨Role.user, user_prompt⟩, ⟨Role.assistant, response_text⟩],
             cs.sentCalls ++ [user_prompt],
             cs.receivedReplies ++ [response_text]⟩ }
    | some cs, SendResult.err e =>
        { s with
          messages := s.messages ++
            [⟨Role.user, user_prompt⟩, ⟨Role.assistant, errorForDisplay e⟩],
          chat_session := some
            ⟨cs.modelId, cs.history, cs.sentCalls ++ [user_prompt],
             cs.receivedReplies⟩ }
    | none, _ =>
        { s with messages := s.messages ++ [⟨Role.user, user_prompt⟩] }

/-- One script execution that processes a chat submission: session
initialization (lines 85-101) always runs before the chat input (line 115). -/
def runSubmit (c : Cache) (s : AppState) (user_prompt : String)
    (o : SendResult) : Cache × AppState :=
  ((ensureReady c s).1, chatInputHandler (ensureReady c s).2 user_prompt o)

/-- The two external events a session reacts to. -/
inductive Event
  | submit (text : String) (o : SendResult)
  | applyPrompt (newPrompt : String)

/-- One script execution per event.  A prompt change triggers a rerun
(line 77) whose next execution performs session initialization again. -/
def step (c : Cache) (s : AppState) : Event → Cache × AppState
  | Event.submit t o => runSubmit c s t o
  | Event.applyPrompt p => ensureReady c (applyNewSystemPrompt s p).1

def runEvents (c : Cache) (s : AppState) : List Event → Cache × AppState
  | [] => (c, s)
  | e :: es => runEvents (step c s e).1 (step c s e).2 es

/-- The session state of the very first script execution (lines 60-61 set the
prompt; no messages, no chat session yet). -/
def initState (p : String) : AppState := ⟨p, [], none⟩

/-- The first full script execution: initial state followed by session
initialization. -/
def initApp (c : Cache) (p : String) : Cache × AppState :=
  ensureReady c (initState p)

/-- Outcome of the startup sequence, lines 32-47 followed by lines 85-101:
`st.stop()` on a missing key (line 39) or a `genai.configure` failure
(line 47), else the chat UI is reached. -/
inductive StartupResult
  | fatalMissingKey
  | fatalConfigure (detail : String)
  | ready
  deriving DecidableEq, Repr

/-- Lines 32-47 and 85-101: check `GOOGLE_API_KEY_FOR_APP` (absent or empty
is falsy at line 36), configure the API (`configureError` is the exception
detail when `genai.configure` raises), then initialize model and session. -/
def startup (apiKeyVar : Option String) (configureError : Option String)
    (c : Cache) (s : AppState) : StartupResult × Cache × AppState :=
  match apiKeyVar with
  | none => (StartupResult.fatalMissingKey, c, s)
  | some key =>
      if key = "" then (StartupResult.fatalMissingKey, c, s)
      else
        match configureError with
        | some e => (StartupResult.fatalConfigure e, c, s)
        | none => (StartupResult.ready, (ensureReady c s).1, (ensureReady c s).2)

/-- Contents of the user-role records of a message log, in order. -/
def userContents : List ChatMsg → List String
  | [] => []
  | m :: rest =>
      match m.role with
      | Role.user => m.content :: userContents rest
      | Role.assistant => userContents rest

/-- Contents of the assistant-role records of a message log, in order. -/
def assistantContents : List ChatMsg → List String
  | [] => []
  | m :: rest =>
      match m.role with
      | Role.user => assistantContents rest
      | Role.assistant => m.content :: assistantContents rest

/-- The spec's section-3 invariant, stated against the ghost traces of the
live chat session: the user records of `messages` are exactly the texts
passed to `send_message` on that session, in order, and every reply received
from the session occurs, in order, among the assistant records. -/
def Consistent (s : AppState) : Prop :=
  ∀ cs, s.chat_session = some cs →
    userContents s.messages = cs.sentCalls ∧
    List.Sublist cs.receivedReplies (assistantContents s.messages)

/-- Reachable-state invariant: a chat session exists and the log is
consistent with it. -/
def Good (s : AppState) : Prop := s.chat_session.isSome ∧ Consistent s

namespace SC

/-- Modelled from the spec: the repository's near-duplicate variants with
periodic reminder injection are not under `src/` (the spec's section 1 notes
several variants and section 4.1 specifies their Session Controller);
`src/app.py` is the variant without a turn counter.  `ReminderFrequency` is
the spec's positive constant, observed value 3. -/
def ReminderFrequency : Nat := 3

/-- Modelled from the spec: the composed outgoing string of section 4.1
step 3, embedding the reminder text and the original user text verbatim
(format is the implementer's choice). -/
def composeOutgoing (reminder text : String) : String :=
  reminder ++ ("\n\n" ++ text)

/-- Modelled from the spec: section 4.1 step 3.  With a configured
(non-empty) reminder and `turn % ReminderFrequency == 0`, the outgoing text
is the composed string, otherwise the user text unchanged.  `turn` is the
already-incremented turn counter. -/
def outgoingText (reminder : String) (turn : Nat) (text : String) : String :=
  if reminder ≠ "" ∧ turn % ReminderFrequency = 0 then
    composeOutgoing reminder text
  else text

/-- Modelled from the spec: the ChatSession of the reminder variant, kept
here only as the ghost trace of texts passed to its send operation. -/
structure SCChat where
  sentCalls : List String
  deriving DecidableEq, Repr

/-- Modelled from the spec: the Session Controller state of the reminder
variant — SystemPrompt, MessageLog, ChatSession, TurnCounter (an integer
counting user-submitted turns since the last reset). -/
structure SCState where
  systemPrompt : String
  messageLog : List ChatMsg
  chatSession : Option SCChat
  turnCounter : Nat
  deriving DecidableEq, Repr

/-- Modelled from the spec: `ApplyNewSystemPrompt` of section 4.1 for the
reminder variant.  A changed prompt clears MessageLog, discards ChatSession,
resets TurnCounter to 0 and signals a re-render (`true`); an equal prompt
changes nothing and surfaces a no-op notice (`false`). -/
def applyNewSystemPrompt (t : SCState) (newPrompt : String) : SCState × Bool :=
  if newPrompt ≠ t.systemPrompt then
    (⟨newPrompt, [], none, 0⟩, true)
  else
    (t, false)

/-- Modelled from the spec: `SubmitUserMessage(text)` of section 4.1.
Increment TurnCounter, append the user record, compute the outgoing text,
send it (the ghost trace records the send also when the call fails), and
append the reply or an error record. -/
def submitUserMessage (t : SCState) (reminder text : String)
    (o : SendResult) : SCState :=
  match t.chatSession with
  | none => t
  | some cs =>
      let turn := t.turnCounter + 1
      let outgoing := outgoingText reminder turn text
      let replyRec : ChatMsg :=
        match o with
        | SendResult.ok r => ⟨Role.assistant, r⟩
        | SendResult.err e => ⟨Role.assistant, errorForDisplay e⟩
      ⟨t.systemPrompt,
       t.messageLog ++ [⟨Role.user, text⟩, replyRec],
       some ⟨cs.sentCalls ++ [outgoing]⟩,
       turn⟩

/-- Modelled from the spec: the state right after a reset followed by
`EnsureReady` — fresh ChatSession, seeded greeting, TurnCounter 0. -/
def resetState (p : String) : SCState :=
  ⟨p, [greetingMsg], some ⟨[]⟩, 0⟩

/-- A sequence of `SubmitUserMessage` calls, each with the environment's
outcome for its remote send. -/
def runSubmits (reminder : String) (t : SCState) :
    List (String × SendResult) → SCState
  | [] => t
  | x :: rest => runSubmits reminder (submitUserMessage t reminder x.1 x.2) rest

/-- The outgoing texts produced for `inputs` when the turn counter starts
at `k`. -/
def sentForInputs (reminder : String) (k : Nat) :
    List (String × SendResult) → List String
  | [] => []
  | x :: rest =>
      outgoingText reminder (k + 1) x.1 :: sentForInputs reminder (k + 1) rest

end SC

/-! ## Helper lemmas -/

theorem lookup_append_self {l : List (String × Nat)} {p : String} {v : Nat}
    (h : l.lookup p = none) : (l ++ [(p, v)]).lookup p = some v := by
  induction l with
  | nil => simp [List.lookup]
  | cons a t ih =>
      obtain ⟨k, b⟩ := a
      cases hk : (p == k) with
      | true => simp [List.lookup, hk] at h
      | false =>
          simp only [List.cons_append, List.lookup, hk] at h ⊢
          exact ih h

/-- A second lookup with the same prompt is a cache hit returning the same
instance and leaving the cache unchanged. -/
theorem get_generative_model_stable (c : Cache) (p : String) :
    get_generative_model (get_generative_model c p).2 p
      = get_generative_model c p := by
  cases h : c.entries.lookup p with
  | some id => simp [get_generative_model, h]
  | none =>
      have h2 : (c.entries ++ [(p, c.next)]).lookup p = some c.next :=
        lookup_append_self h
      simp [get_generative_model, h, h2]

@[simp] theorem userContents_nil : userContents [] = [] := rfl

@[simp] theorem userContents_user_cons (t : String) (l : List ChatMsg) :
    userContents (⟨Role.user, t⟩ :: l) = t :: userContents l := rfl

@[simp] theorem userContents_assistant_cons (t : String) (l : List ChatMsg) :
    userContents (⟨Role.assistant, t⟩ :: l) = userContents l := rfl

theorem userContents_append (a b : List ChatMsg) :
    userContents (a ++ b) = userContents a ++ userContents b := by
  induction a with
  | nil => rfl
  | cons m rest ih =>
      obtain ⟨r, t⟩ := m
      cases r <;> simp [userContents, ih]

@[simp] theorem assistantContents_nil : assistantContents [] = [] := rfl

@[simp] theorem assistantContents_user_cons (t : String) (l : List ChatMsg) :
    assistantContents (⟨Role.user, t⟩ :: l) = assistantContents l := rfl

@[simp] theorem assistantContents_assistant_cons (t : String) (l : List ChatMsg) :
    assistantContents (⟨Role.assistant, t⟩ :: l)
      = t :: assistantContents l := rfl

theorem assistantContents_append (a b : List ChatMsg) :
    assistantContents (a ++ b)
      = assistantContents a ++ assistantContents b := by
  induction a with
  | nil => rfl
  | cons m rest ih =>
      obtain ⟨r, t⟩ := m
      cases r <;> simp [assistantContents, ih]

theorem ensureReady_of_some {c : Cache} {s : AppState} {cs : Chat}
    (h : s.chat_session = some cs) : (ensureReady c s).2 = s := by
  simp [ensureReady, h]

theorem ensureReady_isSome (c : Cache) (s : AppState) :
    (ensureReady c s).2.chat_session.isSome := by
  cases h : s.chat_session <;> simp [ensureReady, h]

theorem chatInputHandler_length {s : AppState} {cs : Chat} {t : String}
    (o : SendResult) (ht : t ≠ "") (h : s.chat_session = some cs) :
    (chatInputHandler s t o).messages.length = s.messages.length + 2 := by
  cases o <;> simp [chatInputHandler, ht, h]

theorem chatInputHandler_isSome {s : AppState} {t : String}
    (o : SendResult) (hsome : s.chat_session.isSome) :
    (chatInputHandler s t o).chat_session.isSome := by
  obtain ⟨cs, h⟩ := Option.isSome_iff_exists.mp hsome
  by_cases ht : t = ""
  · simp [chatInputHandler, ht, h]
  · cases o <;> simp [chatInputHandler, ht, h]

theorem good_chatInputHandler {s : AppState} (hg : Good s) (t : String)
    (o : SendResult) : Good (chatInputHandler s t o) := by
  obtain ⟨hsome, hcons⟩ := hg
  refine ⟨chatInputHandler_isSome o hsome, ?_⟩
  obtain ⟨cs, hcs⟩ := Option.isSome_iff_exists.mp hsome
  obtain ⟨h1, h2⟩ := hcons cs hcs
  by_cases ht : t = ""
  · intro cs' hcs'
    simp only [chatInputHandler, ht, if_pos rfl] at hcs'
    simp only [chatInputHandler, ht, if_pos rfl]
    exact hcons cs' hcs'
  · cases o with
    | ok r =>
        intro cs' hcs'
        simp only [chatInputHandler, if_neg ht, hcs, Option.some.injEq] at hcs'
        subst hcs'
        constructor
        · simp only [chatInputHandler, if_neg ht, hcs]
          rw [userContents_append, h1]
          rfl
        · simp only [chatInputHandler, if_neg ht, hcs]
          rw [assistantContents_append]
          exact List.Sublist.append h2 (List.Sublist.refl _)
    | err e =>
        intro cs' hcs'
        simp only [chatInputHandler, if_neg ht, hcs, Option.some.injEq] at hcs'
        subst hcs'
        constructor
        · simp only [chatInputHandler, if_neg ht, hcs]
          rw [userContents_append, h1]
          rfl
        · simp only [chatInputHandler, if_neg ht, hcs]
          rw [assistantContents_append]
          exact h2.trans (List.sublist_append_left _ _)

theorem good_ensureReady_fresh (c : Cache) (p : String) :
    Good (ensureReady c (⟨p, [], none⟩ : AppState)).2 := by
  constructor
  · exact ensureReady_isSome c _
  · intro cs hcs
    simp only [ensureReady, List.isEmpty_nil, if_pos rfl] at hcs ⊢
    simp only [Option.some.injEq] at hcs
    subst hcs
    exact ⟨rfl, List.nil_sublist _⟩

theorem good_ensureReady {c : Cache} {s : AppState} (hg : Good s) :
    Good (ensureReady c s).2 := by
  obtain ⟨cs, hcs⟩ := Option.isSome_iff_exists.mp hg.1
  rw [ensureReady_of_some hcs]
  exact hg

theorem good_step {c : Cache} {s : AppState} (hg : Good s) (e : Event) :
    Good (step c s e).2 := by
  cases e with
  | submit t o =>
      exact good_chatInputHandler (good_ensureReady hg) t o
  | applyPrompt p =>
      by_cases hp : p ≠ s.system_prompt_for_chat
      · simp only [step, applyNewSystemPrompt, if_pos hp]
        exact good_ensureReady_fresh c p
      · simp only [step, applyNewSystemPrompt, if_neg hp]
        exact good_ensureReady hg

theorem good_runEvents {c : Cache} {s : AppState} (hg : Good s)
    (events : List Event) : Good (runEvents c s events).2 := by
  induction events generalizing c s with
  | nil => exact hg
  | cons e es ih => exact ih (good_step hg e)

theorem good_initApp (c : Cache) (p : String) : Good (initApp c p).2 :=
  good_ensureReady_fresh c p

namespace SC

theorem submitUserMessage_some {t : SCState} {sc : List String}
    (h : t.chatSession = some ⟨sc⟩) (reminder text : String) (o : SendResult) :
    (submitUserMessage t reminder text o).chatSession
        = some ⟨sc ++ [outgoingText reminder (t.turnCounter + 1) text]⟩ ∧
    (submitUserMessage t reminder text o).turnCounter = t.turnCounter + 1 := by
  cases o <;> simp [submitUserMessage, h]

theorem runSubmits_sent (reminder : String)
    (inputs : List (String × SendResult)) :
    ∀ (t : SCState) (sc : List String), t.chatSession = some ⟨sc⟩ →
      (runSubmits reminder t inputs).chatSession
        = some ⟨sc ++ sentForInputs reminder t.turnCounter inputs⟩ := by
  induction inputs with
  | nil =>
      intro t sc h
      simp [runSubmits, sentForInputs, h]
  | cons x rest ih =>
      intro t sc h
      have hs := submitUserMessage_some h reminder x.1 x.2
      have h2 := ih (submitUserMessage t reminder x.1 x.2)
        (sc ++ [outgoingText reminder (t.turnCounter + 1) x.1]) hs.1
      rw [hs.2] at h2
      show (runSubmits reminder (submitUserMessage t reminder x.1 x.2)
        rest).chatSession = _
      rw [h2, sentForInputs]
      simp

theorem sentForInputs_get (reminder : String) :
    ∀ (inputs : List (String × SendResult)) (k n : Nat),
      (sentForInputs reminder k inputs).get? n
        = (inputs.get? n).map fun x => outgoingText reminder (k + n + 1) x.1 := by
  intro inputs
  induction inputs with
  | nil =>
      intro k n
      simp [sentForInputs]
  | cons x rest ih =>
      intro k n
      cases n with
      | zero => simp [sentForInputs]
      | succ m =>
          have he : k + 1 + m + 1 = k + (m + 1) + 1 := by omega
          show (sentForInputs reminder (k + 1) rest).get? m = _
          rw [ih (k + 1) m, he]
          rfl

theorem outgoingText_of_mod {reminder : String} (t : String) {m : Nat}
    (h0 : reminder ≠ "") (h3 : m % ReminderFrequency = 0) :
    reminder.data <:+: (outgoingText reminder m t).data := by
  simp only [outgoingText, if_pos (And.intro h0 h3)]
  exact ⟨[], ("\n\n" ++ t).data, by simp [composeOutgoing, String.data_append]⟩

theorem outgoingText_of_not_mod {reminder : String} (t : String) {m : Nat}
    (h3 : m % ReminderFrequency ≠ 0) :
    outgoingText reminder m t = t := by
  simp [outgoingText, h3]

end SC

/-! ## Claim theorems -/

/-- C3: `ApplyNewSystemPrompt` with a prompt different from the current one
sets the prompt, clears the message log, and discards the chat session, so
that the next session initialization creates a fresh one with empty history;
in the reminder variant modelled from the spec it also resets the turn
counter to 0. -/
theorem apply_changed_prompt_resets_session :
    (∀ (s : AppState) (p : String), p ≠ s.system_prompt_for_chat →
      applyNewSystemPrompt s p = (⟨p, [], none⟩, true) ∧
      ∀ c : Cache,
        (ensureReady c (applyNewSystemPrompt s p).1).2.chat_session
          = some ⟨(get_generative_model c p).1, [], [], []⟩) ∧
    (∀ (t : SC.SCState) (p : String), p ≠ t.systemPrompt →
      SC.applyNewSystemPrompt t p = (⟨p, [], none, 0⟩, true)) := by
  constructor
  · intro s p hp
    constructor
    · simp [applyNewSystemPrompt, hp]
    · intro c
      simp [applyNewSystemPrompt, hp, ensureReady]
  · intro t p hp
    simp [SC.applyNewSystemPrompt, hp]

theorem apply_changed_prompt_resets_session_witness :
    applyNewSystemPrompt ⟨"a", [greetingMsg], some ⟨0, [], [], []⟩⟩ "b"
        = (⟨"b", [], none⟩, true) ∧
    SC.applyNewSystemPrompt ⟨"a", [greetingMsg], some ⟨[]⟩, 5⟩ "b"
        = (⟨"b", [], none, 0⟩, true) :=
  ⟨(apply_changed_prompt_resets_session.1
      ⟨"a", [greetingMsg], some ⟨0, [], [], []⟩⟩ "b" (by decide)).1,
   apply_changed_prompt_resets_session.2
      ⟨"a", [greetingMsg], some ⟨[]⟩, 5⟩ "b" (by decide)⟩

/-- C4: applying a prompt equal to the current one changes no session state —
prompt, message log and chat session are untouched — and only the no-op
notice is signalled (`false`); in the reminder variant modelled from the
spec, the turn counter is also untouched. -/
theorem apply_same_prompt_noop :
    (∀ s : AppState,
      applyNewSystemPrompt s s.system_prompt_for_chat = (s, false)) ∧
    (∀ t : SC.SCState,
      SC.applyNewSystemPrompt t t.systemPrompt = (t, false)) := by
  constructor
  · intro s
    simp [applyNewSystemPrompt]
  · intro t
    simp [SC.applyNewSystemPrompt]

/-- C5: session initialization is idempotent — running it twice in a row
with no intervening prompt change equals running it once (no second session,
no duplicated greeting); with a live session the state is returned untouched,
and the greeting is seeded only into an empty message log. -/
theorem ensureReady_idempotent :
    (∀ (c : Cache) (s : AppState),
      ensureReady (ensureReady c s).1 (ensureReady c s).2 = ensureReady c s) ∧
    (∀ (c : Cache) (s : AppState), s.chat_session.isSome →
      (ensureReady c s).2 = s) ∧
    (∀ (c : Cache) (s : AppState), s.messages ≠ [] →
      (ensureReady c s).2.messages = s.messages) := by
  refine ⟨?_, ?_, ?_⟩
  · intro c s
    cases h : s.chat_session with
    | some cs => simp [ensureReady, h, get_generative_model_stable]
    | none => simp [ensureReady, h, get_generative_model_stable]
  · intro c s hsome
    obtain ⟨cs, hcs⟩ := Option.isSome_iff_exists.mp hsome
    exact ensureReady_of_some hcs
  · intro c s hm
    cases h : s.chat_session with
    | some cs => simp [ensureReady, h]
    | none =>
        cases hl : s.messages with
        | nil => exact absurd hl hm
        | cons a l => simp [ensureReady, h, hl]

theorem ensureReady_idempotent_witness :
    (ensureReady ⟨[], 0⟩ ⟨"p", [greetingMsg], some ⟨0, [], [], []⟩⟩).2
        = ⟨"p", [greetingMsg], some ⟨0, [], [], []⟩⟩ ∧
    (ensureReady ⟨[], 0⟩ ⟨"p", [greetingMsg], none⟩).2.messages
        = [greetingMsg] :=
  ⟨ensureReady_idempotent.2.1 ⟨[], 0⟩
      ⟨"p", [greetingMsg], some ⟨0, [], [], []⟩⟩ rfl,
   ensureReady_idempotent.2.2 ⟨[], 0⟩
      ⟨"p", [greetingMsg], none⟩ (by simp)⟩

/-- C6: when the remote send raises, the handler appends exactly one user
record and one assistant record whose content contains the failure detail
verbatim; the handler is a total function (the `except` branch catches every
error, so none escapes) and the chat session stays live for the next turn. -/
theorem send_failure_recovered (s : AppState) (cs : Chat)
    (text detail : String) (ht : text ≠ "") (h : s.chat_session = some cs) :
    (chatInputHandler s text (SendResult.err detail)).messages
        = s.messages ++
          [⟨Role.user, text⟩, ⟨Role.assistant, errorForDisplay detail⟩] ∧
    detail.data <:+: (errorForDisplay detail).data ∧
    (chatInputHandler s text (SendResult.err detail)).chat_session
        = some ⟨cs.modelId, cs.history, cs.sentCalls ++ [text],
                cs.receivedReplies⟩ := by
  refine ⟨by simp [chatInputHandler, ht, h], ?_,
    by simp [chatInputHandler, ht, h]⟩
  exact ⟨"Oops, an error occurred while communicating with the model: ".data,
    [], by simp [errorForDisplay, String.data_append]⟩

theorem send_failure_recovered_witness :
    (chatInputHandler ⟨"p", [greetingMsg], some ⟨0, [], [], []⟩⟩ "hi"
        (SendResult.err "boom")).messages
      = [greetingMsg] ++
        [⟨Role.user, "hi"⟩, ⟨Role.assistant, errorForDisplay "boom"⟩] ∧
    "boom".data <:+: (errorForDisplay "boom").data ∧
    (chatInputHandler ⟨"p", [greetingMsg], some ⟨0, [], [], []⟩⟩ "hi"
        (SendResult.err "boom")).chat_session
      = some ⟨0, [], [] ++ ["hi"], []⟩ :=
  send_failure_recovered ⟨"p", [greetingMsg], some ⟨0, [], [], []⟩⟩
    ⟨0, [], [], []⟩ "hi" "boom" (by decide) rfl

/-- C8: with the API-key environment variable absent, startup returns the
fatal missing-key diagnostic for every configure outcome, with the model
cache and the session state untouched: no model is constructed, no chat
session is created, and the chat UI result is never reached. -/
theorem missing_api_key_fatal (configureError : Option String) (c : Cache)
    (s : AppState) :
    startup none configureError c s = (StartupResult.fatalMissingKey, c, s) :=
  rfl

/-- C9: the model factory is memoizing, keyed by the prompt text: a cached
key is answered from the cache without construction; two lookups with equal
prompt text return the same instance and leave the cache unchanged; a prompt
text distinct from all cached keys constructs exactly one new instance,
distinct from every previously constructed one. -/
theorem get_generative_model_memoizing :
    (∀ (c : Cache) (p : String) (id : Nat), c.entries.lookup p = some id →
      get_generative_model c p = (id, c)) ∧
    (∀ (c : Cache) (p : String),
      get_generative_model (get_generative_model c p).2 p
        = get_generative_model c p) ∧
    (∀ (c : Cache) (p : String), (∀ kv ∈ c.entries, kv.2 < c.next) →
      c.entries.lookup p = none →
      (get_generative_model c p).1 = c.next ∧
      (∀ kv ∈ c.entries, kv.2 ≠ (get_generative_model c p).1) ∧
      (get_generative_model c p).2
        = ⟨c.entries ++ [(p, c.next)], c.next + 1⟩) := by
  refine ⟨?_, get_generative_model_stable, ?_⟩
  · intro c p id h
    simp [get_generative_model, h]
  · intro c p hwf h
    refine ⟨by simp [get_generative_model, h], ?_,
      by simp [get_generative_model, h]⟩
    intro kv hkv
    simp only [get_generative_model, h]
    exact Nat.ne_of_lt (hwf kv hkv)

theorem get_generative_model_memoizing_witness :
    get_generative_model ⟨[("a", 0)], 1⟩ "a" = (0, ⟨[("a", 0)], 1⟩) ∧
    ((get_generative_model ⟨[("a", 0)], 1⟩ "b").1 = 1 ∧
      (∀ kv ∈ [("a", 0)], kv.2 ≠ (get_generative_model ⟨[("a", 0)], 1⟩ "b").1) ∧
      (get_generative_model ⟨[("a", 0)], 1⟩ "b").2
        = ⟨[("a", 0), ("b", 1)], 2⟩) :=
  ⟨get_generative_model_memoizing.1 ⟨[("a", 0)], 1⟩ "a" 0 (by decide),
   get_generative_model_memoizing.2.2 ⟨[("a", 0)], 1⟩ "b"
     (by decide) (by decide)⟩

/-- C10: submitting a non-empty text while no chat session exists appends
only the user record — the log grows by exactly 1, not 2 — and nothing is
sent to the model, no assistant record is appended, and the session stays
absent (only the error banner of line 137 is shown). -/
theorem submit_without_session_appends_one (s : AppState) (text : String)
    (o : SendResult) (ht : text ≠ "") (h : s.chat_session = none) :
    chatInputHandler s text o
      = { s with messages := s.messages ++ [⟨Role.user, text⟩] } := by
  cases o <;> simp [chatInputHandler, ht, h]

theorem submit_without_session_appends_one_witness :
    chatInputHandler ⟨"p", [], none⟩ "hi" (SendResult.ok "r")
      = ⟨"p", [⟨Role.user, "hi"⟩], none⟩ :=
  submit_without_session_appends_one ⟨"p", [], none⟩ "hi"
    (SendResult.ok "r") (by decide) rfl

theorem runEvents_submit_length (inputs : List (String × SendResult)) :
    ∀ (c : Cache) (s : AppState), s.chat_session.isSome →
      (∀ x ∈ inputs, x.1 ≠ "") →
      (runEvents c s
          (inputs.map fun x => Event.submit x.1 x.2)).2.messages.length
        = s.messages.length + 2 * inputs.length := by
  induction inputs with
  | nil =>
      intro c s _ _
      simp [runEvents]
  | cons x rest ih =>
      intro c s hsome hne
      obtain ⟨cs, hcs⟩ := Option.isSome_iff_exists.mp hsome
      have hx : x.1 ≠ "" := hne x (List.mem_cons_self x rest)
      have hrest : ∀ y ∈ rest, y.1 ≠ "" := fun y hy =>
        hne y (List.mem_cons_of_mem x hy)
      have he : (ensureReady c s).2 = s := ensureReady_of_some hcs
      have hstep : (step c s (Event.submit x.1 x.2)).2
          = chatInputHandler s x.1 x.2 := by
        simp [step, runSubmit, he]
      have hsome' : (chatInputHandler s x.1 x.2).chat_session.isSome :=
        chatInputHandler_isSome _ hsome
      have hlen : (chatInputHandler s x.1 x.2).messages.length
          = s.messages.length + 2 :=
        chatInputHandler_length _ hx hcs
      have hih := ih (step c s (Event.submit x.1 x.2)).1
        (chatInputHandler s x.1 x.2) hsome' hrest
      show (runEvents (step c s (Event.submit x.1 x.2)).1
          (step c s (Event.submit x.1 x.2)).2
          (rest.map fun y => Event.submit y.1 y.2)).2.messages.length = _
      rw [hstep, hih, hlen, List.length_cons]
      omega

/-- C2: with a live chat session, one submitted non-empty text grows the
message log by exactly 2 — one user record then one assistant record —
whether the remote send succeeds or fails; hence from startup, after the
seed greeting, the log holds 1 + 2 × (number of submits) records. -/
theorem submit_appends_exactly_two :
    (∀ (c : Cache) (s : AppState) (cs : Chat) (text : String) (o : SendResult),
      text ≠ "" → s.chat_session = some cs →
      (runSubmit c s text o).2.messages.length = s.messages.length + 2) ∧
    (∀ (c : Cache) (p : String) (inputs : List (String × SendResult)),
      (∀ x ∈ inputs, x.1 ≠ "") →
      (runEvents (initApp c p).1 (initApp c p).2
          (inputs.map fun x => Event.submit x.1 x.2)).2.messages.length
        = 1 + 2 * inputs.length) := by
  constructor
  · intro c s cs text o ht hcs
    show (chatInputHandler (ensureReady c s).2 text o).messages.length = _
    rw [ensureReady_of_some hcs]
    exact chatInputHandler_length o ht hcs
  · intro c p inputs hne
    have hg := good_initApp c p
    rw [runEvents_submit_length inputs (initApp c p).1 (initApp c p).2
      hg.1 hne]
    rfl

theorem submit_appends_exactly_two_witness :
    (runSubmit ⟨[], 0⟩ ⟨"p", [greetingMsg], some ⟨0, [], [], []⟩⟩ "hi"
        (SendResult.ok "r")).2.messages.length = 1 + 2 ∧
    (runEvents (initApp ⟨[], 0⟩ "p").1 (initApp ⟨[], 0⟩ "p").2
        ([("hi", SendResult.ok "r"), ("x", SendResult.err "e")].map
          fun x => Event.submit x.1 x.2)).2.messages.length = 1 + 2 * 2 :=
  ⟨submit_appends_exactly_two.1 ⟨[], 0⟩
      ⟨"p", [greetingMsg], some ⟨0, [], [], []⟩⟩ ⟨0, [], [], []⟩ "hi"
      (SendResult.ok "r") (by decide) rfl,
   submit_appends_exactly_two.2 ⟨[], 0⟩ "p"
      [("hi", SendResult.ok "r"), ("x", SendResult.err "e")] (by decide)⟩

/-- C7: over every sequence of events from startup, the message log and the
live chat session never diverge: the user records of the log are exactly the
texts passed to `send_message` on that session, in order, and every reply
received from it occurs, in order, among the assistant records of the log. -/
theorem messageLog_chatSession_never_diverge (c : Cache) (p : String)
    (events : List Event) :
    Consistent (runEvents (initApp c p).1 (initApp c p).2 events).2 :=
  (good_runEvents (good_initApp c p) events).2

/-- C1: in the reminder variant modelled from the spec, for every sequence
of submits from a reset state, the text sent to the chat session on the n-th
user turn contains the configured reminder verbatim exactly when n is a
multiple of `ReminderFrequency` (= 3), and on every other turn it is the
user's text unchanged (stated for user texts that do not themselves contain
the reminder). -/
theorem reminder_injected_iff_multiple_of_frequency
    (reminder p : String) (inputs : List (String × SendResult))
    (hrem : reminder ≠ "")
    (hfree : ∀ x ∈ inputs, ¬ reminder.data <:+: x.1.data) :
    ∃ trace : List String,
      (SC.runSubmits reminder (SC.resetState p) inputs).chatSession
          = some ⟨trace⟩ ∧
      ∀ n, n < inputs.length →
        ∃ out txt,
          trace.get? n = some out ∧
          (inputs.get? n).map Prod.fst = some txt ∧
          (reminder.data <:+: out.data
            ↔ (n + 1) % SC.ReminderFrequency = 0) ∧
          ((n + 1) % SC.ReminderFrequency ≠ 0 → out = txt) := by
  refine ⟨SC.sentForInputs reminder 0 inputs, ?_, ?_⟩
  · exact SC.runSubmits_sent reminder inputs (SC.resetState p) [] rfl
  · intro n hn
    have hx := List.get?_eq_get hn
    set x := inputs.get ⟨n, hn⟩ with hxdef
    refine ⟨SC.outgoingText reminder (n + 1) x.1, x.1, ?_, ?_, ?_, ?_⟩
    · rw [SC.sentForInputs_get, hx]
      simp
    · rw [hx]
      rfl
    · constructor
      · intro hin
        by_contra h3
        rw [SC.outgoingText_of_not_mod x.1 h3] at hin
        exact hfree x (List.get?_mem hx) hin
      · intro h3
        exact SC.outgoingText_of_mod x.1 hrem h3
    · intro h3
      exact SC.outgoingText_of_not_mod x.1 h3

theorem reminder_injected_iff_multiple_of_frequency_witness :
    ∃ trace : List String,
      (SC.runSubmits "Stay calm" (SC.resetState "p")
          [("hi", SendResult.ok "r1"), ("how", SendResult.err "e"),
           ("are", SendResult.ok "r2"), ("you", SendResult.ok "r3")]).chatSession
        = some ⟨trace⟩ ∧
      ∀ n, n < ([("hi", SendResult.ok "r1"), ("how", SendResult.err "e"),
           ("are", SendResult.ok "r2"),
           ("you", SendResult.ok "r3")] : List (String × SendResult)).length →
        ∃ out txt,
          trace.get? n = some out ∧
          (([("hi", SendResult.ok "r1"), ("how", SendResult.err "e"),
             ("are", SendResult.ok "r2"),
             ("you", SendResult.ok "r3")] : List (String × SendResult)).get?
                n).map Prod.fst = some txt ∧
          ("Stay calm".data <:+: out.data
            ↔ (n + 1) % SC.ReminderFrequency = 0) ∧
          ((n + 1) % SC.ReminderFrequency ≠ 0 → out = txt) :=
  reminder_injected_iff_multiple_of_frequency "Stay calm" "p"
    [("hi", SendResult.ok "r1"), ("how", SendResult.err "e"),
     ("are", SendResult.ok "r2"), ("you", SendResult.ok "r3")]
    (by decide) (by decide)

end OCApp
